import Mathlib

/-!
Verification of `src/targets/PythonSdk/source/playfab/PlayFabManualTest.py`,
a manual smoke-test script for the PlayFab Python SDK.  The script is a
linear sequence of configuration assignments, dictionary constructions and
synchronous SDK calls whose callbacks print the success or failure payload.

We embed the script at two levels:
 * a syntactic level (`script : List Stmt`) recording the statements of the
   file in order, used for claims about statement order, exception handlers,
   argument names and the configuration surface;
 * a semantic level (`runScript`), a direct state-passing transcription of
   the script's execution, parameterised by an oracle giving each SDK call's
   outcome (the payloads the external service passes to the callback, or a
   raised `PlayFabException`).
-/

namespace PlayFabManualTest

/-- A Python value as used by the script: `None`, booleans, strings, and
string-keyed dictionaries. -/
inductive PyVal where
  | none
  | bool (b : Bool)
  | str (s : String)
  | dict (entries : List (String × PyVal))

/-- Python truthiness for the values above: `None`, `False`, `""` and `{}`
are falsy, everything else truthy.  This is what `if fail:` tests. -/
def truthy : PyVal → Bool
  | .none => false
  | .bool b => b
  | .str s => !(s == "")
  | .dict entries => !entries.isEmpty

/-- The Python exceptions the script can raise on its own:
`KeyError` (subscript of a dict missing the key), `TypeError` (subscript of
a non-subscriptable value such as `None`), `NameError` (read of an unbound
global such as `EntityKey` before assignment). -/
inductive PyError where
  | keyError (k : String)
  | typeError (msg : String)
  | nameError (n : String)

/-- Python subscripting `v[k]` with a string key `k`: a dictionary yields the
value at the key or raises `KeyError`; `None`, booleans and strings raise
`TypeError`. -/
def subscript : PyVal → String → Except PyError PyVal
  | .dict entries, k =>
    match entries.lookup k with
    | Option.some v => .ok v
    | Option.none => .error (.keyError k)
  | .none, _ => .error (.typeError "NoneType object is not subscriptable")
  | .bool _, _ => .error (.typeError "bool object is not subscriptable")
  | .str _, _ => .error (.typeError "string indices must be integers")

/-- The observable effect of one callback invocation that completes
normally: the payloads it printed, in order, and the module-level globals it
assigned (name, value). -/
structure CbEffect where
  printed : List PyVal
  globalWrites : List (String × PyVal)

/-- `def loginCallback(success, fail)`: prints `fail` if truthy, else
`success`; touches no global. -/
def loginCallback (success fail : PyVal) : Except PyError CbEffect :=
  if truthy fail then .ok ⟨[fail], []⟩
  else .ok ⟨[success], []⟩

/-- `def entityTokenCallback(success, fail)`: prints `fail` if truthy;
otherwise assigns `EntityKey = success["Entity"]` (which may raise) and then
prints `success`. -/
def entityTokenCallback (success fail : PyVal) : Except PyError CbEffect :=
  if truthy fail then .ok ⟨[fail], []⟩
  else
    match subscript success "Entity" with
    | .error e => .error e
    | .ok v => .ok ⟨[success], [("EntityKey", v)]⟩

/-- `def entityObjectCallback(success, fail)`: prints `fail` if truthy, else
`success`; touches no global. -/
def entityObjectCallback (success fail : PyVal) : Except PyError CbEffect :=
  if truthy fail then .ok ⟨[fail], []⟩
  else .ok ⟨[success], []⟩

/-- `def titleDataReqCallback(success, fail)`: prints `fail` if truthy, else
`success`; touches no global. -/
def titleDataReqCallback (success fail : PyVal) : Except PyError CbEffect :=
  if truthy fail then .ok ⟨[fail], []⟩
  else .ok ⟨[success], []⟩

/-- The four callbacks defined by the script, by name. -/
inductive CbName where
  | loginCallback
  | entityTokenCallback
  | entityObjectCallback
  | titleDataReqCallback
deriving DecidableEq

/-- Dispatch a callback by name. -/
def runCallback : CbName → PyVal → PyVal → Except PyError CbEffect
  | .loginCallback, s, f => loginCallback s f
  | .entityTokenCallback, s, f => entityTokenCallback s f
  | .entityObjectCallback, s, f => entityObjectCallback s f
  | .titleDataReqCallback, s, f => titleDataReqCallback s f

/-- The SDK wrapper functions the script invokes. -/
inductive ApiFn where
  | loginWithCustomID
  | getEntityToken
  | getObjects
  | getTitleData
deriving DecidableEq

/-- An exception handler wrapped around a call site: the exception type it
catches and the configuration members it invokes in the except branch. -/
structure Handler where
  catches : String
  invokesConfig : List String

/-- One top-level statement of the script, in a form recording what the
claims are about: writes to the vendor configuration surface, module-level
assignments (with the configuration members and script globals the
right-hand side reads), callback definitions, and SDK calls (with the name
of the variable passed as the request argument, the callback, and the
exception handler enclosing the call, if any). -/
inductive Stmt where
  | configWrite (field : String)
  | assign (name : String) (configReads : List String) (globalReads : List String)
  | defCallback (cb : CbName)
  | apiCall (fn : ApiFn) (arg : String) (cb : CbName) (handler : Option Handler)

/-- The statements of `PlayFabManualTest.py`, top to bottom.
`request = {}` and its four item assignments are folded into one `assign`
(its `TitleId` item reads `PlayFabSettings.TitleId`).  The `try` block
encloses `titleDataRequest = {}` and the first `GetTitleData` call; its
handler catches `PlayFabErrors.PlayFabException`, prints a message and
invokes `PlayFabSettings.GlobalExceptionLogger`. -/
def script : List Stmt :=
  [ .configWrite "TitleId",
    .assign "customId" [] [],
    .assign "request" ["TitleId"] [],
    .defCallback .loginCallback,
    .apiCall .loginWithCustomID "request" .loginCallback Option.none,
    .defCallback .entityTokenCallback,
    .assign "etRequest" [] [],
    .apiCall .getEntityToken "etRequest" .entityTokenCallback Option.none,
    .defCallback .entityObjectCallback,
    .assign "eoRequest" [] [],
    .apiCall .getObjects "etRequest" .entityObjectCallback Option.none,
    .assign "eoRequest2" [] ["EntityKey"],
    .apiCall .getObjects "eoRequest2" .entityObjectCallback Option.none,
    .defCallback .titleDataReqCallback,
    .assign "titleDataRequest" [] [],
    .apiCall .getTitleData "titleDataRequest" .titleDataReqCallback
      (Option.some ⟨"PlayFabErrors.PlayFabException", ["GlobalExceptionLogger"]⟩),
    .configWrite "DeveloperSecretKey",
    .assign "titleDataRequest2" [] [],
    .apiCall .getTitleData "titleDataRequest" .titleDataReqCallback Option.none ]

/-- The configuration members a statement writes. -/
def Stmt.configWrites : Stmt → List String
  | .configWrite f => [f]
  | _ => []

/-- The configuration members a statement's right-hand side reads. -/
def Stmt.configReads : Stmt → List String
  | .assign _ reads _ => reads
  | _ => []

/-- The configuration members a statement's exception handler invokes. -/
def Stmt.configInvokes : Stmt → List String
  | .apiCall _ _ _ (Option.some h) => h.invokesConfig
  | _ => []

/-- The SDK function a statement calls, if it is a call. -/
def Stmt.callFn : Stmt → Option ApiFn
  | .apiCall fn _ _ _ => Option.some fn
  | _ => Option.none

/-- The script globals a statement's right-hand side reads. -/
def Stmt.globalReads : Stmt → List String
  | .assign _ _ reads => reads
  | _ => []

/-- Whether a statement is an SDK call. -/
def Stmt.isApiCall : Stmt → Bool
  | .apiCall _ _ _ _ => true
  | _ => false

/-- Whether a statement is an SDK call enclosed in an exception handler. -/
def Stmt.isHandledApiCall : Stmt → Bool
  | .apiCall _ _ _ (Option.some _) => true
  | _ => false

/-- Whether a statement is a write to the configuration surface. -/
def Stmt.isConfigWrite : Stmt → Bool
  | .configWrite _ => true
  | _ => false

/-- The variable name a statement passes as the request argument, if it is
an SDK call. -/
def Stmt.callArg : Stmt → Option String
  | .apiCall _ a _ _ => Option.some a
  | _ => Option.none

/-- The indices of the statements satisfying a predicate. -/
def idxsWhere (p : Stmt → Bool) (l : List Stmt) : List Nat :=
  (List.range l.length).filter fun i => (l.get? i).any p

/-- What the external SDK does at one call site: synchronously invoke the
callback with `(success, fail)` payloads, or raise
`PlayFabErrors.PlayFabException`. -/
inductive SdkResponse where
  | respond (success fail : PyVal)
  | raisePlayFabException

/-- One line the script prints: a payload printed by a callback, the
`"Caught expected error"` message, or the `GlobalExceptionLogger`
invocation in the except branch. -/
inductive Output where
  | payload (v : PyVal)
  | caughtExpectedError
  | loggedException

/-- An exception escaping a top-level statement. -/
inductive ScriptError where
  | py (e : PyError)
  | playFabException

/-- The state threaded through the script: module globals assigned by
callbacks, everything printed so far, and the log of SDK calls made
(function, request value passed). -/
structure ExecSt where
  globals : List (String × PyVal)
  output : List Output
  calls : List (ApiFn × PyVal)

/-- Assignment to a module global: later `lookup` finds the newest binding. -/
def setGlobal (g : List (String × PyVal)) (kv : String × PyVal) :
    List (String × PyVal) :=
  kv :: g

/-- One SDK call: the call is logged, then the SDK either raises
`PlayFabException` or synchronously invokes the callback with the oracle's
payloads; the callback's prints and global writes are applied, and a Python
error escaping the callback propagates out of the call.  An error carries
the state reached so far. -/
def callStep (fn : ApiFn) (arg : PyVal) (cb : CbName) (resp : SdkResponse)
    (st : ExecSt) : Except (ScriptError × ExecSt) ExecSt :=
  let st1 : ExecSt := { st with calls := st.calls ++ [(fn, arg)] }
  match resp with
  | .raisePlayFabException => .error (.playFabException, st1)
  | .respond s f =>
    match runCallback cb s f with
    | .error e => .error (.py e, st1)
    | .ok eff =>
      .ok { st1 with
            output := st1.output ++ eff.printed.map Output.payload,
            globals := eff.globalWrites.foldl setGlobal st1.globals }

/-- The outcome of a full script run: everything printed, all SDK calls
made (with the request value passed), and the exception that terminated the
script, if any. -/
structure ScriptResult where
  output : List Output
  calls : List (ApiFn × PyVal)
  error : Option ScriptError

/-- Package a final state and an optional terminating exception. -/
def finishRun (st : ExecSt) (e : Option ScriptError) : ScriptResult :=
  ⟨st.output, st.calls, e⟩

/-- Direct transcription of the script's execution, top to bottom.
`oracle n` is the external service's behaviour at the script's `n`-th SDK
call (0-based); `titleId` and `customId` are the values imported from
`PlayFabManualTestSettings`.  Statements without semantic effect at this
level (callback definitions, configuration writes) are elided; each
dictionary construction and call appears in source order, including the
source's use of `etRequest` (not `eoRequest`) in the first `GetObjects`
call and `titleDataRequest` (not `titleDataRequest2`) in the final
`GetTitleData` call. -/
def runScript (oracle : Nat → SdkResponse) (titleId customId : String) :
    ScriptResult :=
  let request := PyVal.dict
    [("CreateAccount", .bool true), ("CustomId", .str customId),
     ("TitleId", .str titleId), ("LoginTitlePlayerAccountEntity", .bool true)]
  let st0 : ExecSt := ⟨[], [], []⟩
  match callStep .loginWithCustomID request .loginCallback (oracle 0) st0 with
  | .error (e, st) => finishRun st (Option.some e)
  | .ok st1 =>
    let etRequest := PyVal.dict []
    match callStep .getEntityToken etRequest .entityTokenCallback (oracle 1) st1 with
    | .error (e, st) => finishRun st (Option.some e)
    | .ok st2 =>
      let _eoRequest := PyVal.dict []
      match callStep .getObjects etRequest .entityObjectCallback (oracle 2) st2 with
      | .error (e, st) => finishRun st (Option.some e)
      | .ok st3 =>
        match st3.globals.lookup "EntityKey" with
        | Option.none => finishRun st3 (Option.some (.py (.nameError "EntityKey")))
        | Option.some ek =>
          let eoRequest2 := PyVal.dict [("Entity", ek)]
          match callStep .getObjects eoRequest2 .entityObjectCallback (oracle 3) st3 with
          | .error (e, st) => finishRun st (Option.some e)
          | .ok st4 =>
            let titleDataRequest := PyVal.dict []
            let afterTry : ExecSt → ScriptResult := fun st5 =>
              let _titleDataRequest2 := PyVal.dict []
              match callStep .getTitleData titleDataRequest .titleDataReqCallback
                  (oracle 5) st5 with
              | .error (e, st) => finishRun st (Option.some e)
              | .ok st6 => finishRun st6 Option.none
            match callStep .getTitleData titleDataRequest .titleDataReqCallback
                (oracle 4) st4 with
            | .error (.playFabException, st) =>
              afterTry { st with
                output := st.output ++ [Output.caughtExpectedError, Output.loggedException] }
            | .error (.py e, st) => finishRun st (Option.some (.py e))
            | .ok st5 => afterTry st5

/-! ### Shared lemmas about the callbacks -/

theorem loginCallback_eq (s f : PyVal) :
    loginCallback s f = .ok ⟨if truthy f then [f] else [s], []⟩ := by
  unfold loginCallback
  split <;> rfl

theorem entityObjectCallback_eq (s f : PyVal) :
    entityObjectCallback s f = .ok ⟨if truthy f then [f] else [s], []⟩ := by
  unfold entityObjectCallback
  split <;> rfl

theorem titleDataReqCallback_eq (s f : PyVal) :
    titleDataReqCallback s f = .ok ⟨if truthy f then [f] else [s], []⟩ := by
  unfold titleDataReqCallback
  split <;> rfl

theorem entityTokenCallback_ok (s f v : PyVal) (hf : truthy f = false)
    (hs : subscript s "Entity" = .ok v) :
    entityTokenCallback s f = .ok ⟨[s], [("EntityKey", v)]⟩ := by
  simp [entityTokenCallback, hf, hs]

theorem entityTokenCallback_failpath (s f : PyVal) (hf : truthy f = true) :
    entityTokenCallback s f = .ok ⟨[f], []⟩ := by
  simp [entityTokenCallback, hf]

theorem entityTokenCallback_err (s f : PyVal) (e : PyError)
    (hf : truthy f = false) (hs : subscript s "Entity" = .error e) :
    entityTokenCallback s f = .error e := by
  simp [entityTokenCallback, hf, hs]

/-! ### Claim theorems -/

/-- C1 (amended): every callback invocation that completes normally prints
exactly one payload: the failure payload when `fail` is truthy, otherwise
the success payload.  (`entityTokenCallback` with falsy `fail` and a
success payload whose `"Entity"` lookup raises does not complete normally
and prints nothing; see the counterexample.) -/
theorem callback_ok_prints_one_payload (cb : CbName) (s f : PyVal)
    (eff : CbEffect) (h : runCallback cb s f = .ok eff) :
    eff.printed = if truthy f then [f] else [s] := by
  cases cb <;>
    simp only [runCallback, loginCallback_eq, entityObjectCallback_eq,
      titleDataReqCallback_eq] at h
  case loginCallback => cases h; rfl
  case entityObjectCallback => cases h; rfl
  case titleDataReqCallback => cases h; rfl
  case entityTokenCallback =>
    unfold entityTokenCallback at h
    by_cases hf : truthy f
    · rw [if_pos hf] at h
      cases h
      simp [hf]
    · rw [if_neg hf] at h
      cases hs : subscript s "Entity" with
      | error e => rw [hs] at h; cases h
      | ok v =>
        rw [hs] at h
        cases h
        simp [hf]

/-- Witness for C1's theorem at a concrete invocation of `loginCallback`. -/
theorem callback_ok_prints_one_payload_witness :
    (CbEffect.mk [PyVal.str "ok"] []).printed
      = if truthy PyVal.none then [PyVal.none] else [PyVal.str "ok"] :=
  callback_ok_prints_one_payload CbName.loginCallback (PyVal.str "ok")
    PyVal.none ⟨[PyVal.str "ok"], []⟩ rfl

/-- C1 counterexample: invoking `entityTokenCallback` with falsy `fail` and
an empty-dictionary success payload raises `KeyError("Entity")` and prints
no payload at all, so not every invocation prints exactly one payload. -/
theorem entityTokenCallback_missing_entity_prints_nothing :
    runCallback CbName.entityTokenCallback (PyVal.dict []) PyVal.none
      = Except.error (PyError.keyError "Entity") := rfl

/-- C5: the three callbacks that capture no state (`loginCallback`,
`entityObjectCallback`, `titleDataReqCallback`) are extensionally equal:
on every pair of arguments they produce the same printed output and no
other effect. -/
theorem noncapturing_callbacks_extensionally_equal (s f : PyVal) :
    entityObjectCallback s f = loginCallback s f ∧
    titleDataReqCallback s f = loginCallback s f :=
  ⟨rfl, rfl⟩

/-- C9 counterexample: `entityTokenCallback(None, None)` raises a
`TypeError` (`None["Entity"]` is not a `KeyError` in Python), so the claim
that a `None` success payload raises a `KeyError` is wrong. -/
theorem entityTokenCallback_none_raises_typeError :
    entityTokenCallback PyVal.none PyVal.none
      = Except.error (PyError.typeError "NoneType object is not subscriptable") := rfl

/-- C9 (amended): when `entityTokenCallback` is invoked with a falsy `fail`
and the `"Entity"` lookup on the success payload raises (a `KeyError` for a
dictionary without the key, a `TypeError` for `None`), that exception
propagates: the callback prints nothing and assigns no global, in
particular `EntityKey` is not assigned. -/
theorem entityTokenCallback_entity_lookup_error (s f : PyVal) (e : PyError)
    (hf : truthy f = false) (hs : subscript s "Entity" = .error e) :
    entityTokenCallback s f = .error e := by
  simp [entityTokenCallback, hf, hs]

/-- Witness for C9's amended theorem: an empty-dictionary success payload
with falsy `fail` yields `KeyError("Entity")`. -/
theorem entityTokenCallback_entity_lookup_error_witness :
    entityTokenCallback (PyVal.dict []) PyVal.none
      = Except.error (PyError.keyError "Entity") :=
  entityTokenCallback_entity_lookup_error (PyVal.dict []) PyVal.none
    (PyError.keyError "Entity") rfl rfl

/-- C3: exactly one call site in the script is enclosed in an exception
handler — statement index 15, the first of the two
`PlayFabServerAPI.GetTitleData` call sites (the second is index 18) — and
that handler catches `PlayFabErrors.PlayFabException` and forwards the
caught exception to `PlayFabSettings.GlobalExceptionLogger`. -/
theorem single_handled_call_site :
    idxsWhere Stmt.isHandledApiCall script = [15] ∧
    idxsWhere (fun st => st.callFn == Option.some ApiFn.getTitleData) script = [15, 18] ∧
    script.get? 15 = Option.some (.apiCall .getTitleData "titleDataRequest"
      .titleDataReqCallback
      (Option.some ⟨"PlayFabErrors.PlayFabException", ["GlobalExceptionLogger"]⟩)) := by
  refine ⟨by decide, by decide, rfl⟩

/-- C6 counterexample: not every configuration assignment precedes every
SDK call — the `DeveloperSecretKey` assignment is statement 16, after the
call at statement 4 (and four further calls). -/
theorem config_write_after_calls :
    ¬ (∀ i ∈ idxsWhere Stmt.isConfigWrite script,
         ∀ j ∈ idxsWhere Stmt.isApiCall script, i < j) := by
  decide

/-- C6 (amended): the title-identifier assignment (statement 0) precedes
every SDK call, but the developer-secret-key assignment (statement 16)
follows the first five calls and precedes only the final `GetTitleData`
call (statement 18). -/
theorem config_write_order_amended :
    idxsWhere Stmt.isConfigWrite script = [0, 16] ∧
    idxsWhere Stmt.isApiCall script = [4, 7, 10, 12, 15, 18] ∧
    ((idxsWhere Stmt.isApiCall script).all fun j => 0 < j) = true ∧
    (idxsWhere Stmt.isApiCall script).filter (fun j => j < 16) = [4, 7, 10, 12, 15] := by
  refine ⟨by decide, by decide, by decide, by decide⟩

/-- C7: the script touches exactly three members of the vendor
configuration surface: it writes `TitleId` and `DeveloperSecretKey`, reads
`TitleId` (into the login request), and invokes `GlobalExceptionLogger`;
no other configuration member is read, written or invoked. -/
theorem config_surface_touched :
    (script.map Stmt.configWrites).flatten = ["TitleId", "DeveloperSecretKey"] ∧
    (script.map Stmt.configReads).flatten = ["TitleId"] ∧
    (script.map Stmt.configInvokes).flatten = ["GlobalExceptionLogger"] := by
  refine ⟨rfl, rfl, rfl⟩

/-- C8: the dictionary `eoRequest` (statement 9) and the dictionary
`titleDataRequest2` (statement 17) are never passed to any call: the call
right after `eoRequest` is constructed passes `etRequest` (statement 10),
the call right after `titleDataRequest2` is constructed passes
`titleDataRequest` (statement 18), and the full list of request-argument
names across all six calls contains neither name. -/
theorem unused_request_dicts :
    script.get? 9 = Option.some (.assign "eoRequest" [] []) ∧
    script.get? 10 = Option.some (.apiCall .getObjects "etRequest"
      .entityObjectCallback Option.none) ∧
    script.get? 17 = Option.some (.assign "titleDataRequest2" [] []) ∧
    script.get? 18 = Option.some (.apiCall .getTitleData "titleDataRequest"
      .titleDataReqCallback Option.none) ∧
    script.filterMap Stmt.callArg
      = ["request", "etRequest", "etRequest", "eoRequest2",
         "titleDataRequest", "titleDataRequest"] ∧
    (script.filterMap Stmt.callArg).contains "eoRequest" = false ∧
    (script.filterMap Stmt.callArg).contains "titleDataRequest2" = false := by
  refine ⟨rfl, rfl, rfl, rfl, rfl, by decide, by decide⟩

/-- C4: `EntityKey` is the only global any callback writes: every global
write produced by any callback on any arguments is to `EntityKey`;
callbacks other than `entityTokenCallback` write no global at all;
`entityTokenCallback` writes none on its failure branch; and in the
top-level sequence exactly one statement reads the global `EntityKey`
(statement 11, `eoRequest2`), after the `GetEntityToken` call
(statement 7).  Callbacks read no global state at all: their transcriptions
take only the `(success, fail)` payloads as input. -/
theorem entityKey_only_global :
    (∀ cb s f eff, runCallback cb s f = .ok eff →
       eff.globalWrites.all (fun p => p.1 == "EntityKey") = true) ∧
    (∀ cb s f eff, cb ≠ CbName.entityTokenCallback →
       runCallback cb s f = .ok eff → eff.globalWrites = []) ∧
    (∀ s f eff, truthy f = true →
       runCallback CbName.entityTokenCallback s f = .ok eff →
       eff.globalWrites = []) ∧
    idxsWhere (fun st => st.globalReads.contains "EntityKey") script = [11] ∧
    idxsWhere (fun st => st.callFn == Option.some ApiFn.getEntityToken) script = [7] := by
  refine ⟨?_, ?_, ?_, by decide, by decide⟩
  · intro cb s f eff h
    cases cb <;>
      simp only [runCallback, loginCallback_eq, entityObjectCallback_eq,
        titleDataReqCallback_eq] at h
    case loginCallback => cases h; rfl
    case entityObjectCallback => cases h; rfl
    case titleDataReqCallback => cases h; rfl
    case entityTokenCallback =>
      unfold entityTokenCallback at h
      by_cases hf : truthy f
      · rw [if_pos hf] at h
        cases h; rfl
      · rw [if_neg hf] at h
        cases hs : subscript s "Entity" with
        | error e => rw [hs] at h; cases h
        | ok v => rw [hs] at h; cases h; rfl
  · intro cb s f eff hne h
    cases cb <;>
      simp only [runCallback, loginCallback_eq, entityObjectCallback_eq,
        titleDataReqCallback_eq] at h
    case loginCallback => cases h; rfl
    case entityObjectCallback => cases h; rfl
    case titleDataReqCallback => cases h; rfl
    case entityTokenCallback => exact absurd rfl hne
  · intro s f eff hf h
    rw [runCallback, entityTokenCallback_failpath s f hf] at h
    cases h; rfl

/-- Witness for C4's theorem: the concrete write `entityTokenCallback`
performs on a successful payload is to `EntityKey`. -/
theorem entityKey_only_global_witness :
    (CbEffect.mk [PyVal.dict [("Entity", PyVal.str "e")]]
      [("EntityKey", PyVal.str "e")]).globalWrites.all
        (fun p => p.1 == "EntityKey") = true :=
  entityKey_only_global.1 CbName.entityTokenCallback
    (PyVal.dict [("Entity", PyVal.str "e")]) PyVal.none
    ⟨[PyVal.dict [("Entity", PyVal.str "e")]], [("EntityKey", PyVal.str "e")]⟩ rfl

/-- C2: `entityTokenCallback` with falsy `fail` assigns `success["Entity"]`
to the global `EntityKey`, and in any run in which the first three SDK
calls respond (so execution reaches that point) and the `GetEntityToken`
response succeeds with an `"Entity"` field, that captured value is the
`"Entity"` field of the `eoRequest2` dictionary passed to the fourth SDK
call, the second `GetObjects`. -/
theorem entityKey_captured_and_reused :
    (∀ s f v, truthy f = false → subscript s "Entity" = .ok v →
       entityTokenCallback s f = .ok ⟨[s], [("EntityKey", v)]⟩) ∧
    (∀ (oracle : Nat → SdkResponse) (t c : String) (s0 f0 s f s2 f2 v : PyVal),
       oracle 0 = .respond s0 f0 →
       oracle 1 = .respond s f →
       truthy f = false → subscript s "Entity" = .ok v →
       oracle 2 = .respond s2 f2 →
       (runScript oracle t c).calls.get? 3
         = Option.some (ApiFn.getObjects, PyVal.dict [("Entity", v)])) := by
  refine ⟨fun s f v hf hs => entityTokenCallback_ok s f v hf hs, ?_⟩
  intro oracle t c s0 f0 s f s2 f2 v h0 h1 hf hs h2
  simp only [runScript, callStep, runCallback, loginCallback_eq,
    entityObjectCallback_eq, titleDataReqCallback_eq,
    entityTokenCallback_ok s f v hf hs, setGlobal, finishRun, h0, h1, h2,
    List.foldl, List.map, List.nil_append, List.cons_append, List.lookup]
  cases h3 : oracle 3 <;>
    simp [callStep, runCallback, entityObjectCallback_eq,
      titleDataReqCallback_eq, finishRun, setGlobal]
  all_goals cases h4 : oracle 4 <;>
    simp [callStep, runCallback, titleDataReqCallback_eq, finishRun, setGlobal]
  all_goals cases h5 : oracle 5 <;>
    simp [callStep, runCallback, titleDataReqCallback_eq, finishRun, setGlobal]

/-- Witness for C2's theorem: a concrete run in which the service responds
successfully everywhere reuses the captured entity key in the fourth call. -/
theorem entityKey_captured_and_reused_witness :
    (runScript
        (fun _ => SdkResponse.respond
          (PyVal.dict [("Entity", PyVal.str "ek")]) PyVal.none)
        "t" "c").calls.get? 3
      = Option.some (ApiFn.getObjects, PyVal.dict [("Entity", PyVal.str "ek")]) :=
  entityKey_captured_and_reused.2
    (fun _ => SdkResponse.respond (PyVal.dict [("Entity", PyVal.str "ek")]) PyVal.none)
    "t" "c" (PyVal.dict [("Entity", PyVal.str "ek")]) PyVal.none
    (PyVal.dict [("Entity", PyVal.str "ek")]) PyVal.none
    (PyVal.dict [("Entity", PyVal.str "ek")]) PyVal.none (PyVal.str "ek")
    rfl rfl rfl rfl rfl

/-- C10: the `eoRequest2` construction succeeds only when the
`GetEntityToken` call responded with a falsy failure slot and a success
payload whose `"Entity"` lookup succeeds (so `EntityKey` was assigned):
any run making at least four SDK calls had such a response; and when the
first three calls respond but the `GetEntityToken` response reports a
failure, the run terminates with `NameError("EntityKey")` after exactly
three SDK calls, before the remaining calls. -/
theorem eoRequest2_requires_entityKey :
    (∀ (oracle : Nat → SdkResponse) (t c : String),
       4 ≤ (runScript oracle t c).calls.length →
       ∃ s f v, oracle 1 = .respond s f ∧ truthy f = false ∧
         subscript s "Entity" = .ok v) ∧
    (∀ (oracle : Nat → SdkResponse) (t c : String) (s0 f0 s1 f1 s2 f2 : PyVal),
       oracle 0 = .respond s0 f0 →
       oracle 1 = .respond s1 f1 → truthy f1 = true →
       oracle 2 = .respond s2 f2 →
       (runScript oracle t c).error
           = Option.some (ScriptError.py (PyError.nameError "EntityKey")) ∧
       (runScript oracle t c).calls.length = 3) := by
  constructor
  · intro oracle t c hlen
    cases h0 : oracle 0 with
    | raisePlayFabException =>
      have hl : (runScript oracle t c).calls.length = 1 := by
        simp [runScript, callStep, finishRun, h0]
      omega
    | respond s0 f0 =>
      cases h1 : oracle 1 with
      | raisePlayFabException =>
        have hl : (runScript oracle t c).calls.length = 2 := by
          simp [runScript, callStep, runCallback, loginCallback_eq, finishRun,
            setGlobal, h0, h1]
        omega
      | respond s1 f1 =>
        cases hf1 : truthy f1 with
        | true =>
          cases h2 : oracle 2 with
          | raisePlayFabException =>
            have hl : (runScript oracle t c).calls.length = 3 := by
              simp [runScript, callStep, runCallback, loginCallback_eq,
                entityTokenCallback_failpath s1 f1 hf1, finishRun, setGlobal,
                h0, h1, h2]
            omega
          | respond s2 f2 =>
            have hl : (runScript oracle t c).calls.length = 3 := by
              simp [runScript, callStep, runCallback, loginCallback_eq,
                entityTokenCallback_failpath s1 f1 hf1, entityObjectCallback_eq,
                finishRun, setGlobal, h0, h1, h2]
            omega
        | false =>
          cases hs : subscript s1 "Entity" with
          | error e =>
            have hl : (runScript oracle t c).calls.length = 2 := by
              simp [runScript, callStep, runCallback, loginCallback_eq,
                entityTokenCallback_err s1 f1 e hf1 hs, finishRun, setGlobal,
                h0, h1]
            omega
          | ok v => exact ⟨s1, f1, v, rfl, hf1, hs⟩
  · intro oracle t c s0 f0 s1 f1 s2 f2 h0 h1 hf1 h2
    constructor <;>
      simp [runScript, callStep, runCallback, loginCallback_eq,
        entityTokenCallback_failpath s1 f1 hf1, entityObjectCallback_eq,
        finishRun, setGlobal, h0, h1, h2]

/-- Witness for C10's theorem: a run in which the `GetEntityToken` call
reports a failure makes exactly three SDK calls and dies with
`NameError("EntityKey")`. -/
theorem eoRequest2_requires_entityKey_witness :
    (runScript (fun _ => SdkResponse.respond PyVal.none (PyVal.str "boom"))
        "t" "c").error
      = Option.some (ScriptError.py (PyError.nameError "EntityKey")) :=
  (eoRequest2_requires_entityKey.2
    (fun _ => SdkResponse.respond PyVal.none (PyVal.str "boom")) "t" "c"
    PyVal.none (PyVal.str "boom") PyVal.none (PyVal.str "boom")
    PyVal.none (PyVal.str "boom") rfl rfl rfl rfl).1

end PlayFabManualTest
